import Mathlib

/-!
Shallow embedding of the Windows-MidiController repository
(src/main.py, src/midi_controller/controller.py, src/midi_controller/config.py,
src/midi_controller/actions/pad_actions.py, src/midi_controller/actions/knob_actions.py).

Modelling conventions:
* Python floats are modelled as rationals (all arithmetic in the dispatch core
  is exact: division by 127, subtraction of 0.5, multiplication by small
  constants, truncation to int).
* OS-level side effects (volume/brightness APIs, keystrokes, scrolling,
  window/process operations) are the capability boundary: the embedding
  records the capability calls a dispatch makes as a list of effects, together
  with warning/error log records (info-level log lines are not modelled; no
  claim refers to them).
* Python exceptions: every handler in the source wraps its body in a
  try/except that logs and returns, so the embedded dispatch functions are
  total; an `Except`-based model is used only where exception flow is itself
  the subject (the entry points).
-/

/-- A capability call: one invocation of an OS-level side-effecting operation
by the dispatch layer (spec section 4.4). Knob capabilities carry the value the
code passes them; pad capabilities are recorded by the handler method name the
reflection dispatch in `controller.handle_pad_action` resolves. -/
inductive Cap
  | setSystemVolume (v : ℚ)
  | setApplicationVolume (app : String) (v : ℚ)
  | setScreenBrightness (v : ℚ)
  | hotkeyCtrlPlus
  | hotkeyCtrlMinus
  | hscroll (amount : ℤ)
  | vscroll (amount : ℤ)
  | padCall (method : String)
deriving DecidableEq, Repr

/-- An observable effect of a dispatch: a capability call, a warning log
record, an error log record, or — for the pad reflection dispatch only — a
resolution into Python's inherited object-attribute namespace. The last
constructor is a disclosed residue: for a transformed action name beginning
with a double underscore, `hasattr`/`getattr` consult the Python runtime's
inherited attribute set (`__doc__`, `__init__`, `__class__`, ...), which this
embedding does not enumerate; the program then produces an error log (calling
a non-callable attribute such as `__doc__`), a silent successful call
(`__init__`), or the no-handler warning (a dunder-shaped name that is not an
attribute), and the marker stands for whichever of these the runtime yields.
No theorem asserts anything about dispatches that produce this marker. -/
inductive Eff
  | cap (c : Cap)
  | logWarn (msg : String)
  | logError (msg : String)
  | pyObjectAttr (attr : String)
deriving DecidableEq, Repr

/-- Python's `int()` applied to a float: truncation toward zero. -/
def pyTrunc (q : ℚ) : ℤ := if 0 ≤ q then ⌊q⌋ else ⌈q⌉

/-- `KnobActions._get_relative_change` (knob_actions.py): converts a normalized
value in [0,1] to a signed change, `(normalized_value - 0.5) * 2 * sensitivity`. -/
def get_relative_change (normalized_value sensitivity : ℚ) : ℚ :=
  (normalized_value - 1/2) * 2 * sensitivity

/-- `KnobActions.relative_zoom` (knob_actions.py): sensitivity 1.0, deadzone
`|change| < 0.1`; then `int(change * 5)` Ctrl-Plus keystrokes when positive,
`int(abs(change) * 5)` Ctrl-Minus keystrokes otherwise. -/
def relative_zoom (normalized_value : ℚ) : List Eff :=
  let change := get_relative_change normalized_value 1
  if |change| < 1/10 then []
  else if 0 < change then
    List.replicate (pyTrunc (change * 5)).toNat (Eff.cap Cap.hotkeyCtrlPlus)
  else
    List.replicate (pyTrunc (|change| * 5)).toNat (Eff.cap Cap.hotkeyCtrlMinus)

/-- `KnobActions.horizontal_scroll` (knob_actions.py): sensitivity 2.0,
deadzone `|change| < 0.1`, then `pyautogui.hscroll(int(change * 50))`. -/
def horizontal_scroll (normalized_value : ℚ) : List Eff :=
  let change := get_relative_change normalized_value 2
  if |change| < 1/10 then []
  else [Eff.cap (Cap.hscroll (pyTrunc (change * 50)))]

/-- `KnobActions.vertical_scroll` (knob_actions.py): sensitivity 2.0,
deadzone `|change| < 0.1`, then `pyautogui.vscroll(int(change * 50))`. -/
def vertical_scroll (normalized_value : ℚ) : List Eff :=
  let change := get_relative_change normalized_value 2
  if |change| < 1/10 then []
  else [Eff.cap (Cap.vscroll (pyTrunc (change * 50)))]

/-- `KnobActions.handle_action` (knob_actions.py): an explicit if/elif chain on
the action name; an unrecognized name logs a warning and does nothing else. -/
def handle_action (action : String) (normalized_value : ℚ) : List Eff :=
  if action = "System Volume" then [Eff.cap (Cap.setSystemVolume normalized_value)]
  else if action = "Spotify Volume" then
    [Eff.cap (Cap.setApplicationVolume "spotify.exe" normalized_value)]
  else if action = "Firefox Volume" then
    [Eff.cap (Cap.setApplicationVolume "firefox.exe" normalized_value)]
  else if action = "Screen Brightness" then
    [Eff.cap (Cap.setScreenBrightness normalized_value)]
  else if action = "Relative Zoom" then relative_zoom normalized_value
  else if action = "Horizontal Scroll" then horizontal_scroll normalized_value
  else if action = "Vertical Scroll" then vertical_scroll normalized_value
  else [Eff.logWarn ("Unknown knob action: " ++ action)]

/-- A stored knob-mapping value (config.py): either the structured record
`{"action": ..., "min": ..., "max": ...}` written by `update_knob_mapping` and
`create_default_config`, or a legacy bare action string. These are the two
value shapes `get_knob_action` distinguishes with `isinstance`. -/
inductive KnobVal
  | str (s : String)
  | record (action : String) (minv maxv : ℤ)
deriving DecidableEq, Repr

/-- Python `dict.get`: look up a key in an association list (the model of a
Python dict keeps the most recent binding first). -/
def dictGet {α : Type} (d : List (String × α)) (k : String) : Option α :=
  (d.find? (fun p => p.1 == k)).map Prod.snd

/-- Python `dict[k] = v`: bind a key, overwriting any previous binding. -/
def dictSet {α : Type} (d : List (String × α)) (k : String) (v : α) :
    List (String × α) :=
  (k, v) :: d.filter (fun p => p.1 != k)

/-- The in-memory state of `Config` (config.py): the pad and knob mapping
dicts, keyed by the decimal string of the note / CC number. -/
structure Config where
  pad_mappings : List (String × String)
  knob_mappings : List (String × KnobVal)
deriving DecidableEq, Repr

/-- The state of the persisted configuration file `midi_config.json`: absent,
present but unparsable, or present with the two stored mappings. -/
inductive FileState
  | absent
  | unparsable
  | stored (pads : List (String × String)) (knobs : List (String × KnobVal))
deriving DecidableEq, Repr

/-- The default pad mappings of `Config.create_default_config` (config.py). -/
def default_pad_mappings : List (String × String) :=
  [("36", "Previous Track"), ("37", "Play/Pause Spotify"), ("38", "Next Track"),
   ("39", "Launch/Focus Slack"), ("40", "Launch/Focus Windsurf"),
   ("41", "Voice Recognition"), ("42", "Toggle Audio Output"),
   ("43", "Move to Next Display")]

/-- The default knob mappings of `Config.create_default_config` (config.py). -/
def default_knob_mappings : List (String × KnobVal) :=
  [("16", KnobVal.record "System Volume" 1 127),
   ("17", KnobVal.record "Spotify Volume" 1 127),
   ("18", KnobVal.record "Firefox Volume" 1 127),
   ("19", KnobVal.record "Screen Brightness" 1 127)]

/-- The `Config` state holding exactly the defaults. -/
def defaultConfig : Config :=
  { pad_mappings := default_pad_mappings, knob_mappings := default_knob_mappings }

/-- `Config.save_config` (config.py): writes both mappings to the file; a
failure (modelled by `ok = false`) is caught and logged, leaving both the
in-memory state and (in this model) the file as they were. Total: the
`except` clause swallows every exception. -/
def save_config (c : Config) (fs : FileState) (ok : Bool) : Config × FileState :=
  (c, if ok then FileState.stored c.pad_mappings c.knob_mappings else fs)

/-- `Config.create_default_config` (config.py): set both in-memory mappings to
the built-in defaults, then `save_config`. -/
def create_default_config (fs : FileState) (saveOk : Bool) : Config × FileState :=
  save_config defaultConfig fs saveOk

/-- `Config.load_config` (config.py): if the file exists and parses, take both
mappings from it (`config.get(..., {})`); if it is absent or anything raises
while reading it, fall back to `create_default_config`. Total: the `except`
clause catches every exception and `create_default_config` cannot raise. -/
def load_config (fs : FileState) (saveOk : Bool) : Config × FileState :=
  match fs with
  | FileState.stored pads knobs =>
      ({ pad_mappings := pads, knob_mappings := knobs }, fs)
  | FileState.absent => create_default_config fs saveOk
  | FileState.unparsable => create_default_config fs saveOk

/-- `Config.update_pad_mapping` (config.py): `self.pad_mappings[str(note)] =
action`, then `save_config`. -/
def update_pad_mapping (c : Config) (fs : FileState) (note action : String)
    (saveOk : Bool) : Config × FileState :=
  save_config { c with pad_mappings := dictSet c.pad_mappings note action } fs saveOk

/-- `Config.update_knob_mapping` (config.py): store the structured record for
the CC, then `save_config`. -/
def update_knob_mapping (c : Config) (fs : FileState) (cc action : String)
    (min_val max_val : ℤ) (saveOk : Bool) : Config × FileState :=
  save_config
    { c with knob_mappings :=
        dictSet c.knob_mappings cc (KnobVal.record action min_val max_val) } fs saveOk

/-- `Config.get_pad_action` (config.py): `self.pad_mappings.get(str(note))`. -/
def get_pad_action (c : Config) (note : String) : Option String :=
  dictGet c.pad_mappings note

/-- `Config.get_knob_action` (config.py): `mapping = knob_mappings.get(str(cc))`;
`if mapping and isinstance(mapping, dict): return mapping.get("action")`,
`elif mapping and isinstance(mapping, str): return mapping`, else `None`.
Python truthiness makes a legacy empty string fall through to `None`; the
structured record (a non-empty dict) is always truthy. -/
def get_knob_action (c : Config) (cc : String) : Option String :=
  match dictGet c.knob_mappings cc with
  | some (KnobVal.record action _ _) => some action
  | some (KnobVal.str s) => if s = "" then none else some s
  | none => none

/-! ## Controller dispatch (controller.py) -/

/-- The name transformation `controller.handle_pad_action` applies before the
`hasattr` lookup: `action.lower().replace('/', '_').replace(' ', '_')`. The
two `replace` calls have single-character patterns, so they are per-character
substitutions; lowercasing leaves `/` and the space unchanged, so the three
passes compose into one character map. -/
def transformName (action : String) : String :=
  String.mk (action.data.map (fun ch =>
    let lc := ch.toLower
    if lc = '/' then '_' else if lc = ' ' then '_' else lc))

/-- The action methods defined on `PadActions` (pad_actions.py): exactly the
names `hasattr`/`getattr` resolve to a callable capability handler. -/
def padMethodNames : List String :=
  ["previous_track", "play_pause_spotify", "next_track", "launch_focus_slack",
   "launch_focus_windsurf", "voice_recognition", "toggle_audio_output",
   "move_to_next_display", "minimize_window", "maximize_window",
   "switch_window", "open_file_explorer", "show_desktop"]

/-- The non-callable instance attributes `PadActions.__init__` sets
(pad_actions.py): `hasattr` is true for these, but calling the retrieved
attribute raises `TypeError`, which `handle_pad_action` catches and logs as an
error. (Python object-protocol dunder attributes, which no action name of the
form the configuration uses transforms into, are not modelled.) -/
def padAttrNames : List String := ["logger", "window_utils", "process_utils"]

/-- Whether a transformed action name is dunder-shaped (begins with a double
underscore). Every attribute a `PadActions` instance has beyond its action
methods and the three `__init__`-set instance attributes is inherited from
the object protocol and is dunder-named; `transformName` maps lowercase
letters and underscores to themselves, so a configured action name can reach
these attributes. The embedding treats this whole name space conservatively
as unmodelled (see `Eff.pyObjectAttr`). -/
def isDunderName (m : String) : Bool := m.data.take 2 == ['_', '_']

/-- `controller.handle_pad_action` (controller.py lines 99-110): look up the
action for `str(note)`; `if action:` (None and the empty string are falsy);
transform the name; if it names a `PadActions` action method, invoke it (a
capability call); if it names one of the three non-callable instance
attributes, the call raises `TypeError`, caught and logged as an error; a
dunder-shaped name resolves against Python's inherited attribute namespace,
recorded as the unmodelled `Eff.pyObjectAttr` marker; otherwise `hasattr` is
false and the no-handler warning is logged. Total: the `except` clause
catches every exception. -/
def handle_pad_action (c : Config) (note : ℕ) : List Eff :=
  match get_pad_action c (toString note) with
  | none => []
  | some action =>
    if action = "" then []
    else if transformName action ∈ padMethodNames then
      [Eff.cap (Cap.padCall (transformName action))]
    else if transformName action ∈ padAttrNames then
      [Eff.logError ("Error executing pad action " ++ action)]
    else if isDunderName (transformName action) then
      [Eff.pyObjectAttr (transformName action)]
    else [Eff.logWarn ("No handler found for pad action: " ++ action)]

/-- The normalization `controller.handle_knob_action` applies (line 121):
`normalized_value = value / 127.0`. -/
def normalize_value (value : ℕ) : ℚ := (value : ℚ) / 127

/-- `controller.handle_knob_action` (controller.py lines 112-127): look up the
action for `str(cc)`; `if action:` (None and the empty string are falsy);
normalize the raw value and pass it to `KnobActions.handle_action`. -/
def handle_knob_action (c : Config) (cc value : ℕ) : List Eff :=
  match get_knob_action c (toString cc) with
  | none => []
  | some action =>
    if action = "" then []
    else handle_action action (normalize_value value)

/-- The per-event classification of `controller.start_monitoring`
(controller.py lines 141-148): status 144 with data2 > 0 goes to the pad
handler with note = data1; otherwise status 176 goes to the knob handler with
cc = data1, value = data2; every other event is ignored. -/
def process_event (c : Config) : ℕ × ℕ × ℕ → List Eff
  | (status, data1, data2) =>
    if status = 144 ∧ 0 < data2 then handle_pad_action c data1
    else if status = 176 then handle_knob_action c data1 data2
    else []

/-- The effects of running the monitoring loop's classification over a batch
of events in order. -/
def process_events (c : Config) (events : List (ℕ × ℕ × ℕ)) : List Eff :=
  (events.map (process_event c)).flatten

/-! ## Device initialization and monitoring lifecycle (controller.py) -/

/-- The outcome of one iteration of the `initialize_midi` retry loop's `try`
block (controller.py lines 62-88): the MIDI setup / device enumeration raises;
or enumeration succeeds and a matching "mpk mini" input device is found and
opened; or enumeration succeeds but no matching device exists (the loop
returns at once in the latter two cases). -/
inductive AttemptResult
  | raises
  | foundDevice
  | noDevice
deriving DecidableEq, Repr

/-- The observable outcome of `initialize_midi`: whether a device ended up
connected, how many attempts ran, and how many `time.sleep(1)` backoffs were
taken. -/
structure InitResult where
  connected : Bool
  attempts : ℕ
  sleeps : ℕ
deriving DecidableEq, Repr

/-- The `while retry_count < max_retries` loop of `initialize_midi`
(controller.py lines 61-97), driven by the outcome of each attempt.
`attemptIdx` counts attempts already made, `remaining` is
`max_retries - retry_count`. An exception increments `retry_count` and sleeps
1 second only when `retry_count < max_retries` still holds; a non-raising
attempt returns immediately whether or not the device was found. -/
def initAux (outcomes : ℕ → AttemptResult) :
    (attemptIdx remaining sleeps : ℕ) → InitResult
  | attemptIdx, 0, sleeps => ⟨false, attemptIdx, sleeps⟩
  | attemptIdx, r + 1, sleeps =>
    match outcomes attemptIdx with
    | AttemptResult.foundDevice => ⟨true, attemptIdx + 1, sleeps⟩
    | AttemptResult.noDevice => ⟨false, attemptIdx + 1, sleeps⟩
    | AttemptResult.raises =>
      if r = 0 then ⟨false, attemptIdx + 1, sleeps⟩
      else initAux outcomes (attemptIdx + 1) r (sleeps + 1)

/-- `controller.initialize_midi` (controller.py lines 56-97): `max_retries = 3`,
starting with no attempts made. Total: each attempt's exception is caught by
the `except` clause, so no exception escapes. -/
def initialize_midi (outcomes : ℕ → AttemptResult) : InitResult :=
  initAux outcomes 0 3 0

/-- The state the monitoring entry reaches (spec section 4.5's state machine,
restricted to what `start_monitoring` decides up front). -/
inductive LoopState
  | idle
  | polling
deriving DecidableEq, Repr

/-- The entry guard of `controller.start_monitoring` (controller.py lines
129-135): with no MIDI input device it logs an error and returns immediately
(idle); otherwise it enters the polling loop. -/
def start_monitoring_state (r : InitResult) : LoopState :=
  if r.connected then LoopState.polling else LoopState.idle

/-- The MIDI resource state: whether the device handle is open and whether the
underlying MIDI subsystem is initialized. The pygame operations `Input.close`
and `pygame.midi.quit` are external collaborators, modelled per the spec's
resource-release contract as idempotent releases. -/
structure MidiResources where
  deviceOpen : Bool
  subsystemUp : Bool
deriving DecidableEq, Repr

/-- `self.midi_input.close()`: release the device handle. -/
def midi_close (s : MidiResources) : MidiResources := { s with deviceOpen := false }

/-- `pygame.midi.quit()`: release the MIDI subsystem. -/
def midi_quit (s : MidiResources) : MidiResources := { s with subsystemUp := false }

/-- `controller.cleanup` (controller.py lines 161-166): `if self.midi_input:`
close it, then `pygame.midi.quit()`. `hasInput` is whether `self.midi_input`
is set (it is never reset to `None` once set). -/
def cleanup (hasInput : Bool) (s : MidiResources) : MidiResources :=
  midi_quit (if hasInput then midi_close s else s)

/-- The `finally` block of `controller.start_monitoring` (controller.py lines
156-159): `if self.midi_input:` close it, then `pygame.midi.quit()` — the
loop's own shutdown path, run on interrupt, error, or normal exit. -/
def monitoring_shutdown (hasInput : Bool) (s : MidiResources) : MidiResources :=
  midi_quit (if hasInput then midi_close s else s)

/-! ## Entry points (src/main.py `main` and controller.py `main`) -/

/-- The exception classes the entry points distinguish: `KeyboardInterrupt`
(not an `Exception` subclass), any ordinary `Exception`, and `NameError` (the
class of the `UnboundLocalError` raised on reading an unbound local; a
subclass of `Exception`). -/
inductive PyExn
  | keyboardInterrupt
  | exception
  | nameError
deriving DecidableEq, Repr

/-- The observable outcome of an entry point: whether `cleanup()` was invoked,
and the result (normal return, or an exception escaping the function). -/
structure EntryTrace where
  cleanupCalled : Bool
  result : Except PyExn Unit
deriving Repr

/-- `main` in src/main.py: `try: controller = AkaiMPKMiniAutomation(...);
controller.start_monitoring()` with `except KeyboardInterrupt` and
`except Exception` handlers, then `finally: controller.cleanup()`. The local
`controller` is bound only if the constructor returns; the `finally` block
reads it, raising `NameError` (`UnboundLocalError`) if it is unbound, which
replaces any pending (handled or unhandled) outcome. `ctor` and `monitor` are
the results of the constructor call and of `start_monitoring`. -/
def main_src (ctor : Except PyExn Unit) (monitor : Except PyExn Unit) :
    EntryTrace :=
  let controllerBound : Bool := ctor.isOk
  let bodyResult : Except PyExn Unit := do ctor; monitor
  let handled : Except PyExn Unit :=
    match bodyResult with
    | Except.ok _ => Except.ok ()
    | Except.error PyExn.keyboardInterrupt => Except.ok ()
    | Except.error _ => Except.ok ()
  if controllerBound then { cleanupCalled := true, result := handled }
  else { cleanupCalled := false, result := Except.error PyExn.nameError }

/-- `main` in controller.py (lines 168-176): same shape, but the only handler
is `except Exception`, which does not catch `KeyboardInterrupt`; the `finally`
block reads the local `mpk`. -/
def main_controller (ctor : Except PyExn Unit) (monitor : Except PyExn Unit) :
    EntryTrace :=
  let mpkBound : Bool := ctor.isOk
  let bodyResult : Except PyExn Unit := do ctor; monitor
  let handled : Except PyExn Unit :=
    match bodyResult with
    | Except.ok _ => Except.ok ()
    | Except.error PyExn.keyboardInterrupt => Except.error PyExn.keyboardInterrupt
    | Except.error _ => Except.ok ()
  if mpkBound then { cleanupCalled := true, result := handled }
  else { cleanupCalled := false, result := Except.error PyExn.nameError }

/-! ## Shared lemmas -/

/-- Lookup after an overwriting update returns the freshly written value. -/
theorem dictGet_set_self {α : Type} (d : List (String × α)) (k : String) (v : α) :
    dictGet (dictSet d k v) k = some v := by
  unfold dictGet dictSet
  rw [List.find?_cons_of_pos _ (by simp)]
  rfl

/-- C1: every event is classified by status byte — status 144 with data2 > 0
goes to the pad handler with note = data1, status 176 goes to the knob handler
with cc = data1 and value = data2, and every other event (including status 144
with data2 = 0) is ignored with no dispatch; under the default mappings the
stream [(144,40,100),(176,16,64),(176,17,0),(144,36,0)] yields exactly the
attempt to focus or launch Windsurf, a set-system-volume call with normalized
value 64/127 (0.504 to three places), a set-Spotify-volume call with 0.0, and
no dispatch for the final event. -/
theorem C1_event_classification :
    (∀ (c : Config) (status data1 data2 : ℕ),
      (status = 144 ∧ 0 < data2 →
        process_event c (status, data1, data2) = handle_pad_action c data1) ∧
      (status = 176 →
        process_event c (status, data1, data2) = handle_knob_action c data1 data2) ∧
      (¬(status = 144 ∧ 0 < data2) → status ≠ 176 →
        process_event c (status, data1, data2) = [])) ∧
    process_events defaultConfig [(144, 40, 100), (176, 16, 64), (176, 17, 0), (144, 36, 0)] =
      [Eff.cap (Cap.padCall "launch_focus_windsurf"),
       Eff.cap (Cap.setSystemVolume (normalize_value 64)),
       Eff.cap (Cap.setApplicationVolume "spotify.exe" (normalize_value 0))] ∧
    normalize_value 64 = 64 / 127 ∧ normalize_value 0 = 0 ∧
    (5035 / 10000 : ℚ) ≤ normalize_value 64 ∧ normalize_value 64 < 5045 / 10000 := by
  refine ⟨fun c status data1 data2 => ⟨?_, ?_, ?_⟩, by rfl,
    by norm_num [normalize_value], by norm_num [normalize_value],
    by norm_num [normalize_value], by norm_num [normalize_value]⟩
  · rintro ⟨rfl, h2⟩
    simp [process_event, h2]
  · rintro rfl
    simp [process_event]
  · intro hn h176
    simp only [process_event]
    rw [if_neg hn, if_neg h176]

/-- C1 witness: the classification conjuncts applied to concrete events. -/
theorem C1_event_classification_witness :
    process_event defaultConfig (144, 40, 100) = handle_pad_action defaultConfig 40 ∧
    process_event defaultConfig (176, 16, 64) = handle_knob_action defaultConfig 16 64 ∧
    process_event defaultConfig (128, 36, 100) = [] :=
  ⟨(C1_event_classification.1 defaultConfig 144 40 100).1 ⟨rfl, by decide⟩,
   (C1_event_classification.1 defaultConfig 176 16 64).2.1 rfl,
   (C1_event_classification.1 defaultConfig 128 36 100).2.2 (by decide) (by decide)⟩

/-- C2: for each knob action consuming a relative change (Relative Zoom with
sensitivity 1, Horizontal and Vertical Scroll with sensitivity 2) and every
normalized v in [0,1], a derived change of magnitude below 0.1 makes the
handler return with no capability call (and no other effect). -/
theorem C2_deadzone (v : ℚ) (h0 : 0 ≤ v) (h1 : v ≤ 1) :
    (|get_relative_change v 1| < 1/10 → handle_action "Relative Zoom" v = []) ∧
    (|get_relative_change v 2| < 1/10 → handle_action "Horizontal Scroll" v = []) ∧
    (|get_relative_change v 2| < 1/10 → handle_action "Vertical Scroll" v = []) := by
  refine ⟨fun h => ?_, fun h => ?_, fun h => ?_⟩
  · simp only [handle_action]
    norm_num
    rw [relative_zoom]
    show (if |get_relative_change v 1| < 1/10 then ([] : List Eff) else _) = []
    rw [if_pos h]
  · simp only [handle_action]
    norm_num
    rw [horizontal_scroll]
    show (if |get_relative_change v 2| < 1/10 then ([] : List Eff) else _) = []
    rw [if_pos h]
  · simp only [handle_action]
    norm_num
    rw [vertical_scroll]
    show (if |get_relative_change v 2| < 1/10 then ([] : List Eff) else _) = []
    rw [if_pos h]

/-- C2 witness: at the knob center v = 1/2 the change is 0 for every
sensitivity and all three relative handlers make no call. -/
theorem C2_deadzone_witness :
    handle_action "Relative Zoom" (1/2) = [] ∧
    handle_action "Horizontal Scroll" (1/2) = [] ∧
    handle_action "Vertical Scroll" (1/2) = [] :=
  ⟨(C2_deadzone (1/2) (by norm_num) (by norm_num)).1 (by norm_num [get_relative_change]),
   (C2_deadzone (1/2) (by norm_num) (by norm_num)).2.1 (by norm_num [get_relative_change]),
   (C2_deadzone (1/2) (by norm_num) (by norm_num)).2.2 (by norm_num [get_relative_change])⟩

/-- C3: for every note n in 0..127 and action name A, `update_pad_mapping`
followed by `get_pad_action` returns A, and the lookup still returns A after
the configuration is persisted and reloaded (the update itself persists
synchronously; reloading from the persisted file preserves the mapping). -/
theorem C3_pad_mapping_roundtrip (c : Config) (fs : FileState) (n : ℕ)
    (hn : n ≤ 127) (A : String) :
    get_pad_action (update_pad_mapping c fs (toString n) A true).1 (toString n) = some A ∧
    get_pad_action (load_config (update_pad_mapping c fs (toString n) A true).2 true).1
      (toString n) = some A :=
  ⟨dictGet_set_self _ _ _, dictGet_set_self _ _ _⟩

/-- C3 witness: the round trip at note 36 with action "Next Track" starting
from the default configuration and an absent file. -/
theorem C3_pad_mapping_roundtrip_witness :
    get_pad_action
      (update_pad_mapping defaultConfig FileState.absent (toString 36) "Next Track" true).1
      (toString 36) = some "Next Track" ∧
    get_pad_action
      (load_config
        (update_pad_mapping defaultConfig FileState.absent (toString 36) "Next Track" true).2
        true).1 (toString 36) = some "Next Track" :=
  C3_pad_mapping_roundtrip defaultConfig FileState.absent 36 (by decide) "Next Track"

/-- C5: initialization attempts device setup at most 3 times with at most
2 one-second backoffs (between attempts only), never letting an exception
escape (the model is total); enumeration raising twice then finding the
device on the 3rd attempt ends connected after 2 sleeps and monitoring
reaches the polling state; all 3 attempts raising ends unconnected and
`start_monitoring` returns immediately, leaving the loop idle. -/
theorem C5_init_retry :
    (∀ f : ℕ → AttemptResult,
      (initialize_midi f).attempts ≤ 3 ∧ (initialize_midi f).sleeps ≤ 2) ∧
    (∀ f : ℕ → AttemptResult, f 0 = AttemptResult.raises → f 1 = AttemptResult.raises →
      f 2 = AttemptResult.foundDevice →
      initialize_midi f = ⟨true, 3, 2⟩ ∧
      start_monitoring_state (initialize_midi f) = LoopState.polling) ∧
    (∀ f : ℕ → AttemptResult, (∀ i, i < 3 → f i = AttemptResult.raises) →
      initialize_midi f = ⟨false, 3, 2⟩ ∧
      start_monitoring_state (initialize_midi f) = LoopState.idle) := by
  refine ⟨fun f => ?_, fun f h0 h1 h2 => ?_, fun f h => ?_⟩
  · cases h0 : f 0 <;> cases h1 : f 1 <;> cases h2 : f 2 <;>
      simp [initialize_midi, initAux, h0, h1, h2]
  · simp [initialize_midi, initAux, h0, h1, h2, start_monitoring_state]
  · simp [initialize_midi, initAux, h 0 (by norm_num), h 1 (by norm_num),
      h 2 (by norm_num), start_monitoring_state]

/-- C5 witness: the retry scenarios at concrete outcome sequences. -/
theorem C5_init_retry_witness :
    initialize_midi (fun i => if i < 2 then AttemptResult.raises else
      AttemptResult.foundDevice) = ⟨true, 3, 2⟩ ∧
    start_monitoring_state (initialize_midi (fun i => if i < 2 then AttemptResult.raises
      else AttemptResult.foundDevice)) = LoopState.polling ∧
    initialize_midi (fun _ => AttemptResult.raises) = ⟨false, 3, 2⟩ ∧
    start_monitoring_state (initialize_midi (fun _ => AttemptResult.raises)) =
      LoopState.idle ∧
    (initialize_midi (fun _ => AttemptResult.noDevice)).attempts ≤ 3 :=
  ⟨(C5_init_retry.2.1 _ rfl rfl rfl).1, (C5_init_retry.2.1 _ rfl rfl rfl).2,
   (C5_init_retry.2.2 _ (fun _ _ => rfl)).1, (C5_init_retry.2.2 _ (fun _ _ => rfl)).2,
   (C5_init_retry.1 _).1⟩

/-- C6: the normalization applied before dispatching a knob action is exactly
r / 127.0, is monotone non-decreasing, and maps 0 to 0.0 and 127 to 1.0. -/
theorem C6_normalize (r s : ℕ) (hrs : r ≤ s) (hs : s ≤ 127) :
    normalize_value r = (r : ℚ) / 127 ∧ normalize_value r ≤ normalize_value s ∧
    normalize_value 0 = 0 ∧ normalize_value 127 = 1 := by
  refine ⟨rfl, ?_, by norm_num [normalize_value], by norm_num [normalize_value]⟩
  unfold normalize_value
  gcongr

/-- C6 witness: the endpoints. -/
theorem C6_normalize_witness :
    normalize_value 0 ≤ normalize_value 127 ∧ normalize_value 127 = 1 :=
  ⟨(C6_normalize 0 127 (by decide) (by decide)).2.1,
   (C6_normalize 0 127 (by decide) (by decide)).2.2.2⟩

/-- C7 counterexample: with the empty string as the action name, the legacy
bare-string form is falsy in Python, so `get_knob_action` returns None for it,
while the structured record form returns the empty string — the two forms do
not resolve to the same action name. -/
theorem C7_legacy_counterexample :
    get_knob_action (Config.mk [] [("20", KnobVal.str "")]) "20" = none ∧
    get_knob_action (Config.mk [] [("20", KnobVal.record "" 1 127)]) "20" = some "" ∧
    (none : Option String) ≠ some "" := by decide

/-- C7 (amended): for every CC and every non-empty action name s, the lookup
returns s whether the stored mapping is the legacy bare string s or the
structured record with action s (for any min/max bounds); a CC with no stored
mapping returns nothing rather than raising; only the empty action name
separates the two forms (the legacy empty string resolves to nothing). -/
theorem C7_legacy_equivalence (pads : List (String × String)) (cc s : String)
    (mn mx : ℤ) (hs : s ≠ "") :
    get_knob_action (Config.mk pads [(cc, KnobVal.str s)]) cc = some s ∧
    get_knob_action (Config.mk pads [(cc, KnobVal.record s mn mx)]) cc = some s ∧
    get_knob_action (Config.mk pads []) cc = none := by
  refine ⟨?_, ?_, rfl⟩ <;>
    simp [get_knob_action, dictGet, List.find?_cons_of_pos, hs]

/-- C7 witness: both forms at CC 20 with action "System Volume". -/
theorem C7_legacy_equivalence_witness :
    get_knob_action (Config.mk [] [("20", KnobVal.str "System Volume")]) "20" =
      some "System Volume" ∧
    get_knob_action (Config.mk [] [("20", KnobVal.record "System Volume" 1 127)]) "20" =
      some "System Volume" ∧
    get_knob_action (Config.mk [] []) "20" = none :=
  C7_legacy_equivalence [] "20" "System Volume" 1 127 (by decide)

/-- C8: configuration load never raises (the embedded `load_config` is total):
a well-formed file loads both stored mappings, an absent or unparsable file
falls back to the built-in defaults and persists them; a save failure
propagates nothing to the caller and leaves the in-memory mappings unchanged. -/
theorem C8_config_error_handling (c : Config) (fs : FileState)
    (pads : List (String × String)) (knobs : List (String × KnobVal)) :
    load_config FileState.absent true =
      (defaultConfig, FileState.stored default_pad_mappings default_knob_mappings) ∧
    load_config FileState.unparsable true =
      (defaultConfig, FileState.stored default_pad_mappings default_knob_mappings) ∧
    load_config (FileState.stored pads knobs) true =
      (Config.mk pads knobs, FileState.stored pads knobs) ∧
    save_config c fs false = (c, fs) :=
  ⟨rfl, rfl, rfl, rfl⟩

/-- C9: resource cleanup is idempotent and safe to run after the monitoring
loop's own shutdown path: running `cleanup` after `monitoring_shutdown` (or
running `cleanup` twice) changes nothing further and leaves the device handle
and the MIDI subsystem released; both operations are total (no raise). -/
theorem C9_cleanup_idempotent :
    (∀ s : MidiResources,
      cleanup true (monitoring_shutdown true s) = monitoring_shutdown true s ∧
      (cleanup true (monitoring_shutdown true s)).deviceOpen = false ∧
      (cleanup true (monitoring_shutdown true s)).subsystemUp = false) ∧
    (∀ (hasInput : Bool) (s : MidiResources),
      cleanup hasInput (cleanup hasInput s) = cleanup hasInput s) := by
  refine ⟨fun s => ⟨rfl, rfl, rfl⟩, fun h s => ?_⟩
  cases h <;> rfl

/-- C10: when the controller constructor raises before the local variable is
bound, the `finally` block of each entry point reads an unbound local and so
raises NameError: cleanup is never invoked and the entry point terminates
with the unhandled NameError instead of a handled exit, whatever exception
the constructor raised and whatever monitoring would have returned. -/
theorem C10_entry_unbound_local (e : PyExn) (monitor : Except PyExn Unit) :
    main_src (Except.error e) monitor =
      { cleanupCalled := false, result := Except.error PyExn.nameError } ∧
    main_controller (Except.error e) monitor =
      { cleanupCalled := false, result := Except.error PyExn.nameError } := by
  constructor <;> rfl
